import Mathlib

/-!
Verification of the major planetary-aspects pipeline
(`src/major/bitcoin/calculate_aspects.py` and companions).

Real-number arithmetic of the Python source (floats) is modelled with exact
rationals `ℚ`; fallible operations (`try/except`, `None` propagation) are
modelled with `Option`/`Except`.
-/

/-- Models `angular_distance` (calculate_aspects.py lines 116-121, and the
identical copy in interactive_gann_aspect_calculator.py lines 35-39):
`diff = abs(lon1 - lon2); if diff > 180: diff = 360 - diff; return diff`. -/
def angular_distance (lon1 lon2 : ℚ) : ℚ :=
  let diff := |lon1 - lon2|
  if diff > 180 then 360 - diff else diff

/-- Models `angular_distance_both_arcs` (calculate_aspects.py lines 123-128):
returns the pair `(short_arc, long_arc)` where
`short_arc = diff if diff <= 180 else 360 - diff` and
`long_arc  = diff if diff >  180 else 360 - diff`, `diff = abs(lon1 - lon2)`. -/
def angular_distance_both_arcs (lon1 lon2 : ℚ) : ℚ × ℚ :=
  let diff := |lon1 - lon2|
  (if diff ≤ 180 then diff else 360 - diff,
   if diff > 180 then diff else 360 - diff)

/-- Models `AspectCalculator.calculate_angle_between_planets`
(calculate_aspects.py lines 417-422, custom_gann_aspect_finder.py lines
145-150); its body is the same as `angular_distance_both_arcs`. -/
def calculate_angle_between_planets (planet1_lon planet2_lon : ℚ) : ℚ × ℚ :=
  let diff := |planet1_lon - planet2_lon|
  (if diff ≤ 180 then diff else 360 - diff,
   if diff > 180 then diff else 360 - diff)

/-- Models `is_aspect_within_orb` (calculate_aspects.py lines 130-135 and the
identical redefinition at lines 187-192):
`diff = abs(angle - target_angle); if diff > 180: diff = 360 - diff;
return diff <= orb`. -/
def is_aspect_within_orb (angle target_angle orb : ℚ) : Bool :=
  let diff := |angle - target_angle|
  decide ((if diff > 180 then 360 - diff else diff) ≤ orb)

/-- Models `AspectCalculator.get_aspect_type` (calculate_aspects.py lines
424-436): walk the ordered aspect catalog (`self.aspects.items()` preserves
insertion order); for `Gann74` test the long arc against the 360-complement
of the catalog angle, for every other entry test the short arc against the
catalog angle, with tolerance `self.orb`; return the first name that passes,
or the empty string when none does. -/
def get_aspect_type (orb : ℚ) (catalog : List (String × ℚ)) (short_arc long_arc : ℚ) : String :=
  match catalog with
  | [] => ""
  | (aspect_name, aspect_angle) :: rest =>
    if aspect_name = "Gann74" then
      if |long_arc - (360 - aspect_angle)| ≤ orb then aspect_name
      else get_aspect_type orb rest short_arc long_arc
    else
      if |short_arc - aspect_angle| ≤ orb then aspect_name
      else get_aspect_type orb rest short_arc long_arc

/-- The orb test of a single catalog entry, written from the spec's words
(§4.2): reflex-flagged definitions (`Gann74`) are tested against the long
arc, all others against the short arc. Used to phrase the first-match
specification that `get_aspect_type` is compared against. -/
def matches_aspect_def (orb short_arc long_arc : ℚ) (d : String × ℚ) : Bool :=
  if d.1 = "Gann74" then decide (|long_arc - (360 - d.2)| ≤ orb)
  else decide (|short_arc - d.2| ≤ orb)

/-- Modelled from the spec (§4.2): "Return the first definition (in catalog
order) that matches", empty string if none qualifies. -/
def first_match_spec (orb : ℚ) (catalog : List (String × ℚ)) (short_arc long_arc : ℚ) : String :=
  ((catalog.find? (matches_aspect_def orb short_arc long_arc)).map Prod.fst).getD ""

/-- The ordered aspect catalog `self.aspects` of `AspectCalculator.__init__`
(calculate_aspects.py lines 368-377). -/
def bitcoin_aspects_catalog : List (String × ℚ) :=
  [("Conjunction", 0), ("Semisquare", 45), ("Sextile", 60), ("Square", 90),
   ("Trine", 120), ("Gann109", 109), ("Opposition", 180), ("Gann74", 74)]

/-- A refined candidate fed to the deduplication window of
`AspectCalculator.find_exact_aspect_dates`: the entries of the dicts produced
by `find_aspects_for_date` restricted to the fields the window logic reads,
namely `aspect['date']` (an ephem day count, modelled as `ℚ`) and
`aspect['angle']`.  All candidates modelled here share one dedup key
`(sorted planet pair, aspect name)`; the window state machine is keyed, so
per-key behaviour is exactly the behaviour on the key's own candidate
stream. -/
structure Candidate where
  date : ℚ
  angle : ℚ
deriving DecidableEq, Repr

/-- Models `angle_precision = abs(aspect['angle'] - target_angle)`
(calculate_aspects.py line 591), where `target_angle =
self.aspects[aspect['aspect']]` is the catalog angle of the key's aspect. -/
def angle_precision (target_angle : ℚ) (c : Candidate) : ℚ :=
  |c.angle - target_angle|

/-- The per-key window record `aspect_windows[aspect_key]`
(calculate_aspects.py lines 611-622): fields `best_precision`,
`best_aspect`, `last_seen`. -/
structure Window where
  best_precision : ℚ
  best_aspect : Candidate
  last_seen : ℚ
deriving DecidableEq, Repr

/-- The tracking state of one dedup key while
`find_exact_aspect_dates` scans: the key's window (absent until the first
candidate) together with the events committed so far for that key
(appended to `exact_aspects` at line 605). -/
structure DedupState where
  window : Option Window
  committed : List Candidate
deriving DecidableEq, Repr

/-- One step of the window state machine of
`AspectCalculator.find_exact_aspect_dates` (calculate_aspects.py lines
593-622), for one dedup key processing one candidate:

* no window yet: open one seeded with the candidate (lines 616-622);
* `angle_precision < best_precision`: replace the best and refresh
  `last_seen` (lines 598-601);
* `elif current_date - last_seen > 30`: commit the window's best and open a
  fresh window seeded with the candidate (lines 602-615);
* otherwise: nothing is updated (note the source does NOT refresh
  `last_seen` for a non-improving in-window candidate). -/
def dedupStep (target_angle : ℚ) (s : DedupState) (c : Candidate) : DedupState :=
  match s.window with
  | none => ⟨some ⟨angle_precision target_angle c, c, c.date⟩, s.committed⟩
  | some w =>
    if angle_precision target_angle c < w.best_precision then
      ⟨some ⟨angle_precision target_angle c, c, c.date⟩, s.committed⟩
    else if c.date - w.last_seen > 30 then
      ⟨some ⟨angle_precision target_angle c, c, c.date⟩, s.committed ++ [w.best_aspect]⟩
    else s

/-- The committed events of one dedup key after
`find_exact_aspect_dates` has processed the key's candidates in scan order
and flushed the still-open window at scan end (calculate_aspects.py lines
584-635: the scan loop followed by the `for window in
aspect_windows.values()` flush, before the final `deduplicate_aspects`
pass). -/
def find_exact_committed (target_angle : ℚ) (cs : List Candidate) : List Candidate :=
  let s := cs.foldl (dedupStep target_angle) ⟨none, []⟩
  match s.window with
  | some w => s.committed ++ [w.best_aspect]
  | none => s.committed

/-- Stable insertion by date, placing the new element before strictly later
dates and after earlier-or-equal ones; `sortByDate` built on it models
Python's stable `sorted(aspects, key=lambda x: x['date'])`
(calculate_aspects.py line 506). -/
def insertByDate (a : Candidate) : List Candidate → List Candidate
  | [] => [a]
  | b :: bs => if a.date ≤ b.date then a :: b :: bs else b :: insertByDate a bs

/-- Stable sort by date (Python `sorted(..., key=lambda x: x['date'])`). -/
def sortByDate (cs : List Candidate) : List Candidate :=
  cs.foldr insertByDate []

/-- State of `AspectCalculator.deduplicate_aspects` for one dedup key: the
`deduplicated` output list built so far and `aspect_tracking[aspect_key]`
(the `{'date': ..., 'angle': ...}` record of the last included candidate, or
absent). -/
structure TrackState where
  dedup : List Candidate
  tracking : Option (ℚ × ℚ)
deriving DecidableEq, Repr

/-- One iteration of the loop of `AspectCalculator.deduplicate_aspects`
(calculate_aspects.py lines 514-556), for one dedup key:

* key not yet tracked: include the candidate and track it;
* `days_diff < self.min_days_between_aspects` (14): skip it, unless it is
  more exact by more than 0.1 degrees, in which case drop the previously
  kept entries within 1 day of the tracked date and include it;
* otherwise: include the candidate and track it. -/
def dedupAspectsStep (target_angle : ℚ) (s : TrackState) (a : Candidate) : TrackState :=
  match s.tracking with
  | none => ⟨s.dedup ++ [a], some (a.date, a.angle)⟩
  | some (last_date, last_angle) =>
    if a.date - last_date < 14 then
      if |a.angle - target_angle| < |last_angle - target_angle| - 1/10 then
        ⟨(s.dedup.filter fun b => !decide (|b.date - last_date| < 1)) ++ [a],
         some (a.date, a.angle)⟩
      else s
    else ⟨s.dedup ++ [a], some (a.date, a.angle)⟩

/-- Models `AspectCalculator.deduplicate_aspects` (calculate_aspects.py
lines 500-568) restricted to one dedup key: sort by date, then run the
tracking loop. -/
def deduplicate_aspects (target_angle : ℚ) (aspects : List Candidate) : List Candidate :=
  ((sortByDate aspects).foldl (dedupAspectsStep target_angle) ⟨[], none⟩).dedup

/-- The full per-key output of `AspectCalculator.find_exact_aspect_dates`
(calculate_aspects.py lines 570-637): window state machine, flush, then the
final `deduplicate_aspects` pass (line 637). -/
def find_exact_aspect_dates (target_angle : ℚ) (cs : List Candidate) : List Candidate :=
  deduplicate_aspects target_angle (find_exact_committed target_angle cs)


/-- Comparison `a < b` between error values where `none` models the
`float('inf')` that `angle_difference_from_target` yields when a position is
unavailable (calculate_aspects.py line 150): infinity is never below
anything, every finite value is below infinity. -/
def ltInf : Option ℚ → Option ℚ → Bool
  | some a, some b => decide (a < b)
  | some _, none => true
  | none, _ => false

/-- Models the nested `angle_difference_from_target(jd)` of
`find_exact_aspect_time` (calculate_aspects.py lines 146-163): look up both
positions (a missing one makes the error infinite, modelled `none`), take
`angular_distance`; for an opposition target measure directly against 180,
otherwise take the minimum of the three 0/360-wrap differences
`min(diff1, diff2, diff3)`. -/
def angle_difference_from_target (pos1 pos2 : ℚ → Option ℚ) (target_angle : ℚ) (jd : ℚ) :
    Option ℚ :=
  match pos1 jd, pos2 jd with
  | some p1, some p2 =>
    let current_angle := angular_distance p1 p2
    if target_angle = 180 then some |current_angle - 180|
    else some (min (min |current_angle - target_angle|
        |current_angle - (target_angle + 360)|)
      |current_angle + 360 - target_angle|)
  | _, _ => none

/-- The bisection loop of `find_exact_aspect_time` (calculate_aspects.py
lines 165-185), with the remaining iteration count explicit (the source runs
`for iteration in range(100)`). Each iteration evaluates the error at the
interval midpoint and both endpoints; it returns the midpoint once the
midpoint error drops below 0.0001, otherwise narrows towards the half whose
outer endpoint has the smaller error; when the iterations are exhausted the
midpoint of the final interval is returned (line 185). -/
def bisect (err : ℚ → Option ℚ) : ℕ → ℚ → ℚ → ℚ
  | 0, left_jd, right_jd => (left_jd + right_jd) / 2
  | n + 1, left_jd, right_jd =>
    if ltInf (err ((left_jd + right_jd) / 2)) (some (1/10000)) then (left_jd + right_jd) / 2
    else if ltInf (err left_jd) (err right_jd) then
      bisect err n left_jd ((left_jd + right_jd) / 2)
    else bisect err n ((left_jd + right_jd) / 2) right_jd

/-- Models `find_exact_aspect_time(planet1_code, planet2_code, target_angle,
start_jd, search_days)` (calculate_aspects.py lines 143-185): 100 bisection
iterations over `[start_jd, start_jd + search_days]`.  The provider
`pos : planet code → jd → Option ℚ` models `calculate_position`
(lines 97-106), which returns `None` on any ephemeris failure. -/
def find_exact_aspect_time (pos : ℕ → ℚ → Option ℚ) (planet1 planet2 : ℕ)
    (target_angle start_jd search_days : ℚ) : ℚ :=
  bisect (angle_difference_from_target (pos planet1) (pos planet2) target_angle)
    100 start_jd (start_jd + search_days)

/-- Python `round(x, 6)`: the nearest multiple of `10 ^ (-6)`.  (Python
breaks exact ties to even, `round` here breaks them upward; no statement
below depends on tie behaviour.) -/
def pyRound6 (x : ℚ) : ℚ := (round (x * 1000000) : ℚ) / 1000000

/-- The numeric fields of the `aspect_data` record committed by
`scan_for_aspects` (calculate_aspects.py lines 270-283). -/
structure AspectEvent where
  exact_jd : ℚ
  planet1_lon : ℚ
  planet2_lon : ℚ
  angle : ℚ
  angle_error : ℚ
deriving DecidableEq, Repr

/-- The per-candidate refinement-and-commit logic of `scan_for_aspects`
(calculate_aspects.py lines 240-286), for one coarse orb hit of the pair
`(planet1, planet2)` at target `target_angle` and step instant `current_jd`:

* `exact_jd = find_exact_aspect_time(..., current_jd - 0.5, 1)` (lines
  242-243);
* `if exact_jd:` — Python truthiness of a float, i.e. `exact_jd ≠ 0`
  (line 245);
* re-measure both positions at `exact_jd` (lines 250-251); if either is
  `None`, `angular_distance(None, ...)` raises `TypeError` from the
  `None` subtraction (line 252), modelled as `Except.error`;
* recompute `angle_error` (against 180 for oppositions, as
  `min(exact_angle, 360 - exact_angle)` for conjunctions, the plain
  difference otherwise, lines 255-259) and commit the event exactly when
  `angle_error <= 0.01` (line 261).

The timestamp conversions of lines 246-247 and 262-268 are output
formatting, out of the core's scope per the specification; note that they
share the module-call defect modelled by `datetimeModuleCall`, which is
settled on the scan entry point itself. -/
def processCandidate (pos : ℕ → ℚ → Option ℚ) (planet1 planet2 : ℕ)
    (target_angle current_jd : ℚ) : Except String (Option AspectEvent) :=
  let exact_jd := find_exact_aspect_time pos planet1 planet2 target_angle (current_jd - 1/2) 1
  if exact_jd ≠ 0 then
    match pos planet1 exact_jd, pos planet2 exact_jd with
    | some exact_pos1, some exact_pos2 =>
      let exact_angle := angular_distance exact_pos1 exact_pos2
      let angle_error :=
        if target_angle = 180 then |exact_angle - 180|
        else if target_angle = 0 then min exact_angle (360 - exact_angle)
        else |exact_angle - target_angle|
      if angle_error ≤ 1/100 then
        Except.ok (some ⟨exact_jd, pyRound6 exact_pos1, pyRound6 exact_pos2,
          pyRound6 exact_angle, pyRound6 angle_error⟩)
      else Except.ok none
    | _, _ => Except.error "TypeError: unsupported operand for NoneType"
  else Except.ok none

/-- Models line 222 of calculate_aspects.py,
`dt = datetime(*current_date[:6])`: the file imports the MODULE `datetime`
(line 9, `import datetime`), and calling a module object unconditionally
raises `TypeError: 'module' object is not callable`. -/
def datetimeModuleCall : Except String Unit :=
  Except.error "TypeError: 'module' object is not callable"

/-- The ten planet codes of the `planets` dict (calculate_aspects.py lines
22-33), abstracted to `0`-`9` in Sun..Pluto order. -/
def planet_codes : List ℕ := [0, 1, 2, 3, 4, 5, 6, 7, 8, 9]

/-- `planet_pairs` (calculate_aspects.py lines 207-213): all pairs with the
first planet strictly before the second. -/
def planet_pairs : List (ℕ × ℕ) :=
  planet_codes.foldr
    (fun i acc => ((planet_codes.filter fun j => i < j).map fun j => (i, j)) ++ acc) []

/-- The module-level `aspects` dict with per-aspect orbs
(calculate_aspects.py lines 36-45), in insertion order, as
`(name, angle, orb)`. -/
def module_aspects : List (String × ℚ × ℚ) :=
  [("Conjunction", 0, 1/2), ("Semisquare", 45, 1/2), ("Sextile", 60, 1),
   ("Square", 90, 1), ("Trine", 120, 1), ("Gann109", 109, 1/2),
   ("Opposition", 180, 1), ("Gann74", 74, 1/2)]

/-- The remainder of one scan-loop iteration after the timestamp conversion
(calculate_aspects.py lines 224-286): for every planet pair, skip the pair
when either coarse position is missing (`continue`, lines 230-231),
otherwise test every aspect's orb coarsely (line 240) and run the
refinement/commit logic on every hit; an error raised while processing a
candidate propagates. -/
def scanBodyRest (pos : ℕ → ℚ → Option ℚ) (current_jd : ℚ) :
    Except String (List AspectEvent) :=
  planet_pairs.foldlM (fun acc pq =>
    match pos pq.1 current_jd, pos pq.2 current_jd with
    | some pos1, some pos2 =>
      let current_angle := angular_distance pos1 pos2
      module_aspects.foldlM (fun acc2 a =>
        if is_aspect_within_orb current_angle a.2.1 a.2.2 then do
          let r ← processCandidate pos pq.1 pq.2 a.2.1 current_jd
          match r with
          | some ev => pure (acc2 ++ [ev])
          | none => pure acc2
        else pure acc2) acc
    | _, _ => pure acc) []

/-- The `while current_jd <= end_jd` loop of `scan_for_aspects`
(calculate_aspects.py lines 220-295), with an explicit iteration bound
`fuel` (when the step is positive the Python loop runs
`⌊(end - start)/step⌋ + 1` times, so any fuel at least that is exact).
Each iteration performs the `datetime(*...)` module call of line 222 before
anything else. -/
def scanLoop (pos : ℕ → ℚ → Option ℚ) (end_jd step_jd : ℚ) :
    ℕ → ℚ → List AspectEvent → Except String (List AspectEvent)
  | 0, _, acc => Except.ok acc
  | fuel + 1, current_jd, acc =>
    if current_jd ≤ end_jd then do
      let _ ← datetimeModuleCall
      let evs ← scanBodyRest pos current_jd
      scanLoop pos end_jd step_jd fuel (current_jd + step_jd) (acc ++ evs)
    else Except.ok acc

/-- Models `scan_for_aspects(start_date, end_date, step_hours)`
(calculate_aspects.py lines 194-295), with dates as rational Julian day
counts and the position provider explicit. -/
def scan_for_aspects (pos : ℕ → ℚ → Option ℚ) (start_jd end_jd step_hours : ℚ)
    (fuel : ℕ) : Except String (List AspectEvent) :=
  scanLoop pos end_jd (step_hours / 24) fuel start_jd []

/-- The everywhere-failing position provider (`calculate_position`
returning `None` at every query). -/
def posNone : ℕ → ℚ → Option ℚ := fun _ _ => none

/-- A provider with every longitude constant 0 (a concrete successful
run: a permanent exact conjunction). -/
def posZero : ℕ → ℚ → Option ℚ := fun _ _ => some 0

/-- Provider for the C3 counterexample: planet 0 fixed at longitude 0;
planet 1 at longitude 99.999 at instant 1/2 and at 99 elsewhere, so that
against target angle 100 the solver's error is 1/1000 at instant 1/2 and 1
everywhere else. -/
def posDip : ℕ → ℚ → Option ℚ := fun p jd =>
  if p = 0 then some 0 else if jd = 1/2 then some (99999/1000) else some 99

/-- The error function realised by `posDip` against target angle 100. -/
def errDip (jd : ℚ) : Option ℚ := if jd = 1/2 then some (1/1000) else some 1

/-- `priority_patterns` (pattern_demo.py lines 9 and 63). -/
def priority_patterns : List ℕ := [45, 90, 135, 180, 225, 270, 315, 360]

/-- Helper of `price_len` with a structural fuel argument (fuel `n` always
suffices for `n ≥ 1`). -/
def price_len_aux : ℕ → ℕ → ℕ
  | 0, _ => 0
  | fuel + 1, n => if n < 10 then 1 else price_len_aux fuel (n / 10) + 1

/-- Decimal digit count: `len(str(price))` as computed throughout
pattern_demo.py, for positive `price` (`price_len 0 = 0` whereas
`len(str(0)) = 1`; every statement below is about positive prices, where the
two agree). -/
def price_len (n : ℕ) : ℕ := price_len_aux n n

/-- Models `is_bold_pattern` (pattern_demo.py lines 3-32): priority Gann
levels, 5-digit `xxx00`, 4-digit `xx00`, or 3-digit exact multiples of
45. -/
def is_bold_pattern (price : ℕ) : Bool :=
  decide (price ∈ priority_patterns) ||
  (decide (price_len price = 5) && decide (price % 100 = 0) &&
    decide (price / 100 % 45 = 0) && decide (0 < price / 100)) ||
  (decide (price_len price = 4) && decide (price % 100 = 0) &&
    decide (price / 100 % 45 = 0) && decide (0 < price / 100)) ||
  (decide (price_len price = 3) && decide (price % 45 = 0) && decide (0 < price))

/-- Models `is_short_term_pattern` (pattern_demo.py lines 34-55): 5-digit
`yyxxx` or 4-digit `yxxx` whose last three digits are a positive multiple
of 45, excluding prices whose leading `price // 100` part is itself a
positive multiple of 45. -/
def is_short_term_pattern (price : ℕ) : Bool :=
  (decide (price_len price = 5) && decide (price % 1000 % 45 = 0) &&
    decide (0 < price % 1000) &&
    (decide (price / 100 % 45 ≠ 0) || decide (price / 100 = 0))) ||
  (decide (price_len price = 4) && decide (price % 1000 % 45 = 0) &&
    decide (0 < price % 1000) &&
    (decide (price / 100 % 45 ≠ 0) || decide (price / 100 = 0)))

/-- Models `is_regular_45_multiple` (pattern_demo.py lines 57-75); on `ℕ`
the guard `price <= 0` is `price = 0`. -/
def is_regular_45_multiple (price : ℕ) : Bool :=
  if price % 45 ≠ 0 ∨ price = 0 then false
  else if price ∈ priority_patterns then false
  else if is_bold_pattern price then false
  else if is_short_term_pattern price then false
  else true

/-- CLAIM C7 (counterexample): `angular_distance` is claimed to land in
`[0, 180]` for ALL real longitudes, but with longitudes farther than 360
apart the missing mod-360 reduction makes it negative:
`angular_distance 400 0 = -40`. -/
theorem c7_angular_distance_counterexample :
    angular_distance 400 0 = -40 ∧ ¬ (0 ≤ angular_distance 400 0) := by
  constructor
  · show (if |(400 : ℚ) - 0| > 180 then 360 - |(400 : ℚ) - 0| else |(400 : ℚ) - 0|) = -40
    norm_num
  · show ¬ (0 ≤ (if |(400 : ℚ) - 0| > 180 then 360 - |(400 : ℚ) - 0| else |(400 : ℚ) - 0|))
    norm_num

/-- CLAIM C7 (amended): `angular_distance` is symmetric for all rational
longitudes, and its value lies in `[0, 180]` whenever the two longitudes are
at most 360 apart (in particular whenever both lie in `[0, 360)`). -/
theorem c7_angular_distance_amended (lon1 lon2 : ℚ) :
    angular_distance lon1 lon2 = angular_distance lon2 lon1 ∧
    (|lon1 - lon2| ≤ 360 →
      0 ≤ angular_distance lon1 lon2 ∧ angular_distance lon1 lon2 ≤ 180) := by
  constructor
  · unfold angular_distance
    rw [abs_sub_comm]
  · intro h
    unfold angular_distance
    rcases le_or_lt |lon1 - lon2| 180 with h1 | h1
    · rw [if_neg (by linarith)]
      exact ⟨abs_nonneg _, h1⟩
    · rw [if_pos h1]
      constructor <;> linarith

/-- Witness for C7 at the spec's own boundary example `(1, 359)`. -/
theorem c7_angular_distance_amended_witness :
    angular_distance 1 359 = angular_distance 359 1 ∧
    0 ≤ angular_distance 1 359 ∧ angular_distance 1 359 ≤ 180 :=
  ⟨(c7_angular_distance_amended 1 359).1,
   (c7_angular_distance_amended 1 359).2 (by norm_num)⟩

/-- CLAIM C8 (counterexample): for longitudes `0` and `359` (both in
`[0, 360)`) the long-arc component of `angular_distance_both_arcs` is `359`,
which is not in the claimed interval `[0, 180]`. -/
theorem c8_long_arc_counterexample :
    (0 : ℚ) ≤ 0 ∧ (0 : ℚ) < 360 ∧ (0 : ℚ) ≤ 359 ∧ (359 : ℚ) < 360 ∧
    (angular_distance_both_arcs 0 359).2 = 359 ∧
    ¬ ((angular_distance_both_arcs 0 359).2 ≤ 180) := by
  refine ⟨le_refl 0, by norm_num, by norm_num, by norm_num, ?_, ?_⟩
  · show (if |(0 : ℚ) - 359| > 180 then |(0 : ℚ) - 359| else 360 - |(0 : ℚ) - 359|) = 359
    norm_num
  · show ¬ ((if |(0 : ℚ) - 359| > 180 then |(0 : ℚ) - 359| else 360 - |(0 : ℚ) - 359|) ≤ 180)
    norm_num

/-- CLAIM C8 (amended): for longitudes in `[0, 360)` the long-arc value
computed by `angular_distance_both_arcs` lies in `[180, 360]` (not
`[0, 180]`); the short arc lies in `[0, 180]` and the two arcs sum to 360. -/
theorem c8_long_arc_amended (lon1 lon2 : ℚ)
    (h1 : 0 ≤ lon1) (h2 : lon1 < 360) (h3 : 0 ≤ lon2) (h4 : lon2 < 360) :
    180 ≤ (angular_distance_both_arcs lon1 lon2).2 ∧
    (angular_distance_both_arcs lon1 lon2).2 ≤ 360 ∧
    0 ≤ (angular_distance_both_arcs lon1 lon2).1 ∧
    (angular_distance_both_arcs lon1 lon2).1 ≤ 180 ∧
    (angular_distance_both_arcs lon1 lon2).1 + (angular_distance_both_arcs lon1 lon2).2 = 360 := by
  have hd : |lon1 - lon2| < 360 := by
    rw [abs_sub_lt_iff]
    constructor <;> linarith
  have hd0 : 0 ≤ |lon1 - lon2| := abs_nonneg _
  unfold angular_distance_both_arcs
  dsimp only
  rcases le_or_lt |lon1 - lon2| 180 with h | h
  · rw [if_pos h, if_neg (show ¬ (|lon1 - lon2| > 180) by linarith)]
    refine ⟨by linarith, by linarith, hd0, h, by ring⟩
  · rw [if_neg (show ¬ (|lon1 - lon2| ≤ 180) by linarith), if_pos h]
    refine ⟨by linarith, by linarith, by linarith, by linarith, by ring⟩

/-- Witness for C8 at `(0, 359)`. -/
theorem c8_long_arc_amended_witness :
    180 ≤ (angular_distance_both_arcs 0 359).2 ∧
    (angular_distance_both_arcs 0 359).2 ≤ 360 ∧
    0 ≤ (angular_distance_both_arcs 0 359).1 ∧
    (angular_distance_both_arcs 0 359).1 ≤ 180 ∧
    (angular_distance_both_arcs 0 359).1 + (angular_distance_both_arcs 0 359).2 = 360 :=
  c8_long_arc_amended 0 359 (by norm_num) (by norm_num) (by norm_num) (by norm_num)

/-- First-match behaviour of `get_aspect_type`, for any arc pair. -/
theorem get_aspect_type_eq_first_match (orb : ℚ) (catalog : List (String × ℚ))
    (short_arc long_arc : ℚ) :
    get_aspect_type orb catalog short_arc long_arc =
      first_match_spec orb catalog short_arc long_arc := by
  induction catalog with
  | nil => rfl
  | cons d rest ih =>
    obtain ⟨aspect_name, aspect_angle⟩ := d
    unfold get_aspect_type first_match_spec
    rw [List.find?_cons]
    by_cases hg : aspect_name = "Gann74"
    · by_cases horb : |long_arc - (360 - aspect_angle)| ≤ orb
      · rw [if_pos hg, if_pos horb]
        have : matches_aspect_def orb short_arc long_arc (aspect_name, aspect_angle) = true := by
          simp [matches_aspect_def, hg, horb]
        rw [this]
        rfl
      · rw [if_pos hg, if_neg horb]
        have : matches_aspect_def orb short_arc long_arc (aspect_name, aspect_angle) = false := by
          simp [matches_aspect_def, hg, horb]
        rw [this]
        exact ih
    · by_cases horb : |short_arc - aspect_angle| ≤ orb
      · rw [if_neg hg, if_pos horb]
        have : matches_aspect_def orb short_arc long_arc (aspect_name, aspect_angle) = true := by
          simp [matches_aspect_def, hg, horb]
        rw [this]
        rfl
      · rw [if_neg hg, if_neg horb]
        have : matches_aspect_def orb short_arc long_arc (aspect_name, aspect_angle) = false := by
          simp [matches_aspect_def, hg, horb]
        rw [this]
        exact ih

/-- CLAIM C6: for every pair of longitudes and every ordered catalog,
`get_aspect_type` applied to the short/long arcs of
`calculate_angle_between_planets` returns the first catalog entry whose orb
test passes (long-arc test for the reflex-flagged `Gann74`, short-arc test
otherwise) and the empty string when none passes, so overlapping orbs are
resolved by declaration order. -/
theorem c6_first_match_priority (lon1 lon2 orb : ℚ) (catalog : List (String × ℚ)) :
    get_aspect_type orb catalog
        (calculate_angle_between_planets lon1 lon2).1
        (calculate_angle_between_planets lon1 lon2).2 =
      first_match_spec orb catalog
        (calculate_angle_between_planets lon1 lon2).1
        (calculate_angle_between_planets lon1 lon2).2 :=
  get_aspect_type_eq_first_match orb catalog _ _

/-- `deduplicate_aspects` keeps a lone candidate unchanged. -/
theorem deduplicate_aspects_singleton (t : ℚ) (m : Candidate) :
    deduplicate_aspects t [m] = [m] := rfl

/-- `deduplicate_aspects` keeps two date-ordered candidates at least 14 days
apart. -/
theorem deduplicate_aspects_pair (t : ℚ) (m1 m2 : Candidate)
    (hle : m1.date ≤ m2.date) (h14 : ¬ (m2.date - m1.date < 14)) :
    deduplicate_aspects t [m1, m2] = [m1, m2] := by
  unfold deduplicate_aspects
  have hs : sortByDate [m1, m2] = [m1, m2] := by
    show insertByDate m1 (insertByDate m2 []) = [m1, m2]
    show insertByDate m1 [m2] = [m1, m2]
    unfold insertByDate
    rw [if_pos hle]
  rw [hs]
  have h1 : dedupAspectsStep t ⟨[], none⟩ m1 = ⟨[m1], some (m1.date, m1.angle)⟩ := rfl
  have h2 : dedupAspectsStep t ⟨[m1], some (m1.date, m1.angle)⟩ m2 =
      ⟨[m1, m2], some (m2.date, m2.angle)⟩ := by
    show (if m2.date - m1.date < 14 then _ else
        (⟨[m1] ++ [m2], some (m2.date, m2.angle)⟩ : TrackState)) =
      (⟨[m1, m2], some (m2.date, m2.angle)⟩ : TrackState)
    rw [if_neg h14]
    rfl
  rw [List.foldl_cons, h1, List.foldl_cons, h2, List.foldl_nil]

/-- Invariant of the window state machine while every incoming candidate is
within 30 days of the window and the candidates stay pairwise within 30
days: no commit fires, the open window tracks a minimal-precision candidate
seen so far, and `last_seen` is the date of the initial window or of one of
the processed candidates. -/
theorem dedupFold_spec (t : ℚ) (cs : List Candidate) :
    ∀ (w : Window) (acc : List Candidate),
    w.best_precision = angle_precision t w.best_aspect →
    (∀ c ∈ cs, c.date - w.last_seen ≤ 30) →
    (∀ c ∈ cs, ∀ d ∈ cs, c.date - d.date ≤ 30) →
    ∃ w' : Window,
      List.foldl (dedupStep t) ⟨some w, acc⟩ cs = ⟨some w', acc⟩ ∧
      w'.best_precision = angle_precision t w'.best_aspect ∧
      (w'.best_aspect = w.best_aspect ∨ w'.best_aspect ∈ cs) ∧
      w'.best_precision ≤ w.best_precision ∧
      (∀ c ∈ cs, w'.best_precision ≤ angle_precision t c) ∧
      (w'.last_seen = w.last_seen ∨ ∃ c ∈ cs, w'.last_seen = c.date) := by
  induction cs with
  | nil =>
    intro w acc hb _ _
    exact ⟨w, rfl, hb, Or.inl rfl, le_refl _,
      fun c hc => absurd hc (List.not_mem_nil c), Or.inl rfl⟩
  | cons c cs ih =>
    intro w acc hb hd hp
    rw [List.foldl_cons]
    by_cases h1 : angle_precision t c < w.best_precision
    · have hstep : dedupStep t ⟨some w, acc⟩ c =
          ⟨some ⟨angle_precision t c, c, c.date⟩, acc⟩ := by
        show (if angle_precision t c < w.best_precision then _ else _) = _
        rw [if_pos h1]
      rw [hstep]
      obtain ⟨w', hfold, hb', hmem', hle', hmin', hls'⟩ :=
        ih ⟨angle_precision t c, c, c.date⟩ acc rfl
          (fun d hd' => hp d (List.mem_cons_of_mem c hd') c (List.mem_cons_self c cs))
          (fun a ha b hbm =>
            hp a (List.mem_cons_of_mem c ha) b (List.mem_cons_of_mem c hbm))
      refine ⟨w', hfold, hb', ?_, ?_, ?_, ?_⟩
      · rcases hmem' with h | h
        · exact Or.inr (by rw [show w'.best_aspect = c from h]; exact List.mem_cons_self c cs)
        · exact Or.inr (List.mem_cons_of_mem c h)
      · exact le_trans hle' (le_of_lt h1)
      · intro d hdm
        rcases List.mem_cons.mp hdm with rfl | hdm'
        · exact hle'
        · exact hmin' d hdm'
      · rcases hls' with h | h
        · exact Or.inr ⟨c, List.mem_cons_self c cs, h⟩
        · obtain ⟨d, hdm, hde⟩ := h
          exact Or.inr ⟨d, List.mem_cons_of_mem c hdm, hde⟩
    · have h2 : ¬ (c.date - w.last_seen > 30) := by
        have := hd c (List.mem_cons_self c cs); linarith
      have hstep : dedupStep t ⟨some w, acc⟩ c = ⟨some w, acc⟩ := by
        show (if angle_precision t c < w.best_precision then _
          else if c.date - w.last_seen > 30 then _
          else (⟨some w, acc⟩ : DedupState)) = (⟨some w, acc⟩ : DedupState)
        rw [if_neg h1, if_neg h2]
      rw [hstep]
      obtain ⟨w', hfold, hb', hmem', hle', hmin', hls'⟩ :=
        ih w acc hb (fun d hd' => hd d (List.mem_cons_of_mem c hd'))
          (fun a ha b hbm =>
            hp a (List.mem_cons_of_mem c ha) b (List.mem_cons_of_mem c hbm))
      refine ⟨w', hfold, hb', ?_, hle', ?_, ?_⟩
      · rcases hmem' with h | h
        · exact Or.inl h
        · exact Or.inr (List.mem_cons_of_mem c h)
      · intro d hdm
        rcases List.mem_cons.mp hdm with rfl | hdm'
        · exact le_trans hle' (not_lt.mp h1)
        · exact hmin' d hdm'
      · rcases hls' with h | h
        · exact Or.inl h
        · obtain ⟨d, hdm, hde⟩ := h
          exact Or.inr ⟨d, List.mem_cons_of_mem c hdm, hde⟩

/-- CLAIM C2: a non-empty candidate stream for one dedup key, pairwise
within the 30-day window, yields exactly one committed event, a member of
the stream with non-negative and minimal angular error; this survives the
final `deduplicate_aspects` pass of `find_exact_aspect_dates`. -/
theorem c2_single_window_min_error (t : ℚ) (c0 : Candidate) (cs : List Candidate)
    (hpair : ∀ c ∈ c0 :: cs, ∀ d ∈ c0 :: cs, c.date - d.date ≤ 30) :
    ∃ m : Candidate,
      find_exact_aspect_dates t (c0 :: cs) = [m] ∧
      m ∈ c0 :: cs ∧
      0 ≤ angle_precision t m ∧
      (∀ c ∈ c0 :: cs, angle_precision t m ≤ angle_precision t c) := by
  obtain ⟨w', hfold, hb', hmem', hle', hmin', _⟩ :=
    dedupFold_spec t cs ⟨angle_precision t c0, c0, c0.date⟩ [] rfl
      (fun c hc => hpair c (List.mem_cons_of_mem c0 hc) c0 (List.mem_cons_self c0 cs))
      (fun a ha b hbm =>
        hpair a (List.mem_cons_of_mem c0 ha) b (List.mem_cons_of_mem c0 hbm))
  have hcommit : find_exact_committed t (c0 :: cs) = [w'.best_aspect] := by
    unfold find_exact_committed
    rw [List.foldl_cons]
    show (let s : DedupState :=
        List.foldl (dedupStep t) ⟨some ⟨angle_precision t c0, c0, c0.date⟩, []⟩ cs
      match s.window with
      | some w => s.committed ++ [w.best_aspect]
      | none => s.committed) = [w'.best_aspect]
    rw [hfold]
    rfl
  have hmem : w'.best_aspect ∈ c0 :: cs := by
    rcases hmem' with h | h
    · rw [show w'.best_aspect = c0 from h]; exact List.mem_cons_self c0 cs
    · exact List.mem_cons_of_mem c0 h
  refine ⟨w'.best_aspect, ?_, hmem, abs_nonneg _, ?_⟩
  · unfold find_exact_aspect_dates
    rw [hcommit, deduplicate_aspects_singleton]
  · intro c hc
    rw [← hb']
    rcases List.mem_cons.mp hc with rfl | hc'
    · exact hle'
    · exact hmin' c hc'

/-- Witness for C2: two candidates one day apart; the sole committed event
is the first, whose error 1 is minimal. -/
theorem c2_single_window_min_error_witness :
    ∃ m : Candidate,
      find_exact_aspect_dates 0 [⟨0, 1⟩, ⟨1, 2⟩] = [m] ∧
      m ∈ [(⟨0, 1⟩ : Candidate), ⟨1, 2⟩] ∧
      0 ≤ angle_precision 0 m ∧
      (∀ c ∈ [(⟨0, 1⟩ : Candidate), ⟨1, 2⟩], angle_precision 0 m ≤ angle_precision 0 c) :=
  c2_single_window_min_error 0 ⟨0, 1⟩ [⟨1, 2⟩]
    (by intro c hc d hd; fin_cases hc <;> fin_cases hd <;> norm_num)

/-- CLAIM C1 (counterexample): two single-candidate clusters 31 > 30 days
apart, where the second cluster's candidate has the smaller angular error
(1/10 < 1/2): the precision test precedes the gap test in the source's
`elif`, so the second candidate merges into the first window instead of
committing it, and only ONE event is committed, not two. -/
theorem c1_two_clusters_counterexample :
    ((31 : ℚ) - 0 > 30) ∧
    find_exact_aspect_dates 0 [⟨0, 1/2⟩, ⟨31, 1/10⟩] = [⟨31, 1/10⟩] ∧
    (find_exact_aspect_dates 0 [⟨0, 1/2⟩, ⟨31, 1/10⟩]).length ≠ 2 := by
  have h : find_exact_aspect_dates 0 [⟨0, 1/2⟩, ⟨31, 1/10⟩] = [⟨31, 1/10⟩] := by
    norm_num [find_exact_aspect_dates, find_exact_committed, dedupStep, angle_precision,
      deduplicate_aspects, sortByDate, insertByDate, dedupAspectsStep, List.foldl,
      List.foldr, abs]
  exact ⟨by norm_num, h, by rw [h]; norm_num⟩

/-- CLAIM C1 (amended): two clusters for one key, each internally within 30
days, every candidate of the second more than 30 days after every candidate
of the first, AND the second cluster's first candidate no more precise than
the first cluster's best — its angular error is at least the MINIMAL error
of the first cluster (some first-cluster candidate is at least as precise):
then exactly two events are committed, the minimal-error candidate of each
cluster (the extra hypothesis is forced by the counterexample: a candidate
improving on the first cluster's best after the gap merges windows instead
of committing). -/
theorem c1_two_clusters_amended (t : ℚ) (c0 d0 : Candidate) (cs1 cs2 : List Candidate)
    (h1 : ∀ c ∈ c0 :: cs1, ∀ d ∈ c0 :: cs1, c.date - d.date ≤ 30)
    (h2 : ∀ c ∈ d0 :: cs2, ∀ d ∈ d0 :: cs2, c.date - d.date ≤ 30)
    (hgap : ∀ c ∈ d0 :: cs2, ∀ d ∈ c0 :: cs1, c.date - d.date > 30)
    (hseed : ∃ c ∈ c0 :: cs1, angle_precision t c ≤ angle_precision t d0) :
    ∃ m1 m2 : Candidate,
      find_exact_aspect_dates t ((c0 :: cs1) ++ d0 :: cs2) = [m1, m2] ∧
      m1 ∈ c0 :: cs1 ∧
      (∀ c ∈ c0 :: cs1, angle_precision t m1 ≤ angle_precision t c) ∧
      m2 ∈ d0 :: cs2 ∧
      (∀ c ∈ d0 :: cs2, angle_precision t m2 ≤ angle_precision t c) := by
  obtain ⟨w1, hfold1, hb1, hmem1, hle1, hmin1, hls1⟩ :=
    dedupFold_spec t cs1 ⟨angle_precision t c0, c0, c0.date⟩ [] rfl
      (fun c hc => h1 c (List.mem_cons_of_mem c0 hc) c0 (List.mem_cons_self c0 cs1))
      (fun a ha b hbm =>
        h1 a (List.mem_cons_of_mem c0 ha) b (List.mem_cons_of_mem c0 hbm))
  have hm1 : w1.best_aspect ∈ c0 :: cs1 := by
    rcases hmem1 with h | h
    · rw [show w1.best_aspect = c0 from h]; exact List.mem_cons_self c0 cs1
    · exact List.mem_cons_of_mem c0 h
  have hmin1' : ∀ c ∈ c0 :: cs1, w1.best_precision ≤ angle_precision t c := by
    intro c hc
    rcases List.mem_cons.mp hc with rfl | hc'
    · exact hle1
    · exact hmin1 c hc'
  obtain ⟨cmin, hcmin_mem, hcmin_le⟩ := hseed
  have hnotlt : ¬ (angle_precision t d0 < w1.best_precision) :=
    not_lt.mpr (le_trans (hmin1' cmin hcmin_mem) hcmin_le)
  have hlsgap : d0.date - w1.last_seen > 30 := by
    rcases hls1 with h | ⟨c, hc, he⟩
    · rw [show w1.last_seen = c0.date from h]
      exact hgap d0 (List.mem_cons_self d0 cs2) c0 (List.mem_cons_self c0 cs1)
    · rw [he]
      exact hgap d0 (List.mem_cons_self d0 cs2) c (List.mem_cons_of_mem c0 hc)
  have hstepd0 : dedupStep t ⟨some w1, []⟩ d0 =
      ⟨some ⟨angle_precision t d0, d0, d0.date⟩, [w1.best_aspect]⟩ := by
    show (if angle_precision t d0 < w1.best_precision then _
      else if d0.date - w1.last_seen > 30 then
        (⟨some ⟨angle_precision t d0, d0, d0.date⟩,
          [] ++ [w1.best_aspect]⟩ : DedupState)
      else _) = _
    rw [if_neg hnotlt, if_pos hlsgap]
    rfl
  obtain ⟨w2, hfold2, hb2, hmem2, hle2, hmin2, _⟩ :=
    dedupFold_spec t cs2 ⟨angle_precision t d0, d0, d0.date⟩ [w1.best_aspect] rfl
      (fun c hc => h2 c (List.mem_cons_of_mem d0 hc) d0 (List.mem_cons_self d0 cs2))
      (fun a ha b hbm =>
        h2 a (List.mem_cons_of_mem d0 ha) b (List.mem_cons_of_mem d0 hbm))
  have hm2 : w2.best_aspect ∈ d0 :: cs2 := by
    rcases hmem2 with h | h
    · rw [show w2.best_aspect = d0 from h]; exact List.mem_cons_self d0 cs2
    · exact List.mem_cons_of_mem d0 h
  have hmin2' : ∀ c ∈ d0 :: cs2, w2.best_precision ≤ angle_precision t c := by
    intro c hc
    rcases List.mem_cons.mp hc with rfl | hc'
    · exact hle2
    · exact hmin2 c hc'
  have hfold : List.foldl (dedupStep t) ⟨none, []⟩ ((c0 :: cs1) ++ d0 :: cs2) =
      ⟨some w2, [w1.best_aspect]⟩ := by
    rw [List.foldl_append]
    have hph1 : List.foldl (dedupStep t) ⟨none, []⟩ (c0 :: cs1) = ⟨some w1, []⟩ := by
      rw [List.foldl_cons]; exact hfold1
    rw [hph1, List.foldl_cons, hstepd0]
    exact hfold2
  have hcommit : find_exact_committed t ((c0 :: cs1) ++ d0 :: cs2) =
      [w1.best_aspect, w2.best_aspect] := by
    unfold find_exact_committed
    rw [hfold]
    rfl
  have hg := hgap w2.best_aspect hm2 w1.best_aspect hm1
  refine ⟨w1.best_aspect, w2.best_aspect, ?_, hm1, ?_, hm2, ?_⟩
  · unfold find_exact_aspect_dates
    rw [hcommit,
      deduplicate_aspects_pair t _ _ (by linarith) (by linarith)]
  · intro c hc
    rw [← hb1]
    exact hmin1' c hc
  · intro c hc
    rw [← hb2]
    exact hmin2' c hc

/-- Witness for C1 (amended): first cluster (days 0 and 1) with errors 1/10
and 1/2, second cluster a single candidate at day 40 with error 3/10 — more
precise than one first-cluster candidate but not than the cluster's best, so
the gap commit fires and two events result. -/
theorem c1_two_clusters_amended_witness :
    ∃ m1 m2 : Candidate,
      find_exact_aspect_dates 0
        (([⟨0, 1/10⟩, ⟨1, 1/2⟩] : List Candidate) ++ [⟨40, 3/10⟩]) = [m1, m2] ∧
      m1 ∈ [(⟨0, 1/10⟩ : Candidate), ⟨1, 1/2⟩] ∧
      (∀ c ∈ [(⟨0, 1/10⟩ : Candidate), ⟨1, 1/2⟩],
        angle_precision 0 m1 ≤ angle_precision 0 c) ∧
      m2 ∈ [(⟨40, 3/10⟩ : Candidate)] ∧
      (∀ c ∈ [(⟨40, 3/10⟩ : Candidate)], angle_precision 0 m2 ≤ angle_precision 0 c) :=
  c1_two_clusters_amended 0 ⟨0, 1/10⟩ ⟨40, 3/10⟩ [⟨1, 1/2⟩] []
    (by intro c hc d hd; fin_cases hc <;> fin_cases hd <;> norm_num)
    (by intro c hc d hd; fin_cases hc; fin_cases hd; norm_num)
    (by intro c hc d hd; fin_cases hc; fin_cases hd <;> norm_num)
    ⟨⟨0, 1/10⟩, List.mem_cons_self _ _, by norm_num [angle_precision, abs]⟩

/-- `angular_distance` lands in `[0, 180]` whenever its inputs are at most
360 apart. -/
theorem angular_distance_bounds (lon1 lon2 : ℚ) (h : |lon1 - lon2| ≤ 360) :
    0 ≤ angular_distance lon1 lon2 ∧ angular_distance lon1 lon2 ≤ 180 := by
  have h0 := abs_nonneg (lon1 - lon2)
  unfold angular_distance
  rcases le_or_lt |lon1 - lon2| 180 with h1 | h1
  · rw [if_neg (show ¬ (|lon1 - lon2| > 180) by linarith)]
    exact ⟨h0, h1⟩
  · rw [if_pos h1]
    constructor <;> linarith

/-- Rounding to six decimals preserves the `[0, 0.01]` acceptance window. -/
theorem pyRound6_bounds (x : ℚ) (h0 : 0 ≤ x) (h1 : x ≤ 1/100) :
    0 ≤ pyRound6 x ∧ pyRound6 x ≤ 1/100 := by
  have hr0 : (0 : ℤ) ≤ round (x * 1000000) := by
    rw [round_eq]
    exact Int.floor_nonneg.mpr (by linarith)
  have hr1 : round (x * 1000000) ≤ 10000 := by
    rw [round_eq]
    have hlt : x * 1000000 + 1/2 < ((10001 : ℤ) : ℚ) := by push_cast; linarith
    have h2 := Int.floor_lt.mpr hlt
    omega
  unfold pyRound6
  constructor
  · apply div_nonneg _ (by norm_num)
    exact_mod_cast hr0
  · rw [div_le_iff₀ (by norm_num : (0:ℚ) < 1000000)]
    calc ((round (x * 1000000) : ℤ) : ℚ) ≤ ((10000 : ℤ) : ℚ) := by exact_mod_cast hr1
      _ = 1/100 * 1000000 := by norm_num

/-- `round(0, 6) = 0`. -/
theorem pyRound6_zero : pyRound6 0 = 0 := by
  unfold pyRound6
  norm_num

/-- Whatever the error function does, the bisection result stays inside the
initial interval. -/
theorem bisect_bounds (err : ℚ → Option ℚ) :
    ∀ (n : ℕ) (l r : ℚ), l ≤ r → l ≤ bisect err n l r ∧ bisect err n l r ≤ r := by
  intro n
  induction n with
  | zero =>
    intro l r h
    constructor
    · show l ≤ (l + r) / 2
      linarith
    · show (l + r) / 2 ≤ r
      linarith
  | succ n ih =>
    intro l r h
    simp only [bisect]
    split
    · constructor <;> [linarith; linarith]
    · split
      · have h2 := ih l ((l + r) / 2) (by linarith)
        exact ⟨h2.1, by linarith [h2.2]⟩
      · have h2 := ih ((l + r) / 2) r (by linarith)
        exact ⟨by linarith [h2.1], h2.2⟩

/-- With every evaluation failing (infinite error) the loop always takes the
`left_jd = mid_jd` branch, so the result is the closed-form final midpoint
`r - (r - l) / 2 ^ (n + 1)`. -/
theorem bisect_none : ∀ (n : ℕ) (l r : ℚ),
    bisect (fun _ => none) n l r = r - (r - l) / 2 ^ (n + 1) := by
  intro n
  induction n with
  | zero =>
    intro l r
    show (l + r) / 2 = r - (r - l) / 2 ^ 1
    ring
  | succ n ih =>
    intro l r
    simp only [bisect, ltInf]
    rw [ih, pow_succ]
    simp only [Bool.false_eq_true, if_false]
    rw [ih]
    ring

/-- Against the all-failing provider the solver's error function is
everywhere infinite. -/
theorem errNone_eq (planet1 planet2 : ℕ) (target_angle : ℚ) :
    angle_difference_from_target (posNone planet1) (posNone planet2) target_angle =
      fun _ => none := rfl

/-- Closed form of the solver's output against the all-failing provider. -/
theorem find_exact_aspect_time_posNone (planet1 planet2 : ℕ)
    (target_angle start_jd search_days : ℚ) :
    find_exact_aspect_time posNone planet1 planet2 target_angle start_jd search_days =
      start_jd + search_days - search_days / 2 ^ 101 := by
  unfold find_exact_aspect_time
  rw [errNone_eq, bisect_none]
  ring

/-- The error function realised by `posDip` against target 100 is
`errDip`. -/
theorem errDip_eq : angle_difference_from_target (posDip 0) (posDip 1) 100 = errDip := by
  funext jd
  by_cases h : jd = 1/2
  · subst h
    have h1 : errDip (1/2) = some (1/1000) := if_pos rfl
    rw [h1]
    simp only [angle_difference_from_target, posDip, if_pos rfl]
    norm_num [angular_distance, min_def, abs]
  · simp only [angle_difference_from_target, posDip, if_pos rfl, if_neg h, errDip]
    norm_num [angular_distance, min_def, abs]

/-- Once the search interval is `[1/2, r]` with `r > 1/2`, the dip at `1/2`
keeps the loop narrowing towards the left endpoint without ever returning
it: the result stays strictly above `1/2`. -/
theorem bisect_errDip : ∀ (n : ℕ) (r : ℚ), 1/2 < r →
    1/2 < bisect errDip n (1/2) r ∧ bisect errDip n (1/2) r ≤ r := by
  intro n
  induction n with
  | zero =>
    intro r h
    constructor
    · show (1:ℚ)/2 < (1/2 + r) / 2
      linarith
    · show ((1:ℚ)/2 + r) / 2 ≤ r
      linarith
  | succ n ih =>
    intro r h
    have hmid : (1/2 : ℚ) < (1/2 + r) / 2 := by linarith
    have hmidne : ((1/2 : ℚ) + r) / 2 ≠ 1/2 := ne_of_gt hmid
    have hrne : r ≠ 1/2 := ne_of_gt h
    have e1 : errDip ((1/2 + r) / 2) = some 1 := if_neg hmidne
    have e2 : errDip (1/2) = some (1/1000) := if_pos rfl
    have e3 : errDip r = some 1 := if_neg hrne
    simp only [bisect, e1, e2, e3, ltInf]
    norm_num
    have h2 := ih ((1/2 + r) / 2) hmid
    exact ⟨h2.1, by linarith [h2.2]⟩

/-- CLAIM C3 (counterexample): running the solver on `posDip` from `t0 = 0`
with horizon 1 against target 100, the first midpoint it evaluates (instant
1/2) has error 1/1000 — not below the 1e-4 early-exit tolerance, so the cap
is reached — yet the returned instant has error 1 > 1/1000: the solver does
NOT return the best (smallest-error) midpoint found during the search, but
the final interval's midpoint. -/
theorem c3_solver_counterexample :
    angle_difference_from_target (posDip 0) (posDip 1) 100 ((0 + (0 + 1)) / 2) =
      some (1/1000) ∧
    ltInf (angle_difference_from_target (posDip 0) (posDip 1) 100 ((0 + (0 + 1)) / 2))
      (some (1/10000)) = false ∧
    angle_difference_from_target (posDip 0) (posDip 1) 100
      (find_exact_aspect_time posDip 0 1 100 0 1) = some 1 ∧
    (1/1000 : ℚ) < 1 := by
  have hhalf : ((0 : ℚ) + (0 + 1)) / 2 = 1/2 := by norm_num
  have hD : errDip (1/2) = some (1/1000) := if_pos rfl
  refine ⟨?_, ?_, ?_, by norm_num⟩
  · rw [errDip_eq, hhalf, hD]
  · rw [errDip_eq, hhalf, hD]
    show decide ((1:ℚ)/1000 < 1/10000) = false
    norm_num
  · rw [errDip_eq]
    have hstep : find_exact_aspect_time posDip 0 1 100 0 1 = bisect errDip 99 (1/2) 1 := by
      unfold find_exact_aspect_time
      rw [errDip_eq]
      rw [show ((0:ℚ) + 1) = 1 from by norm_num]
      show bisect errDip (99 + 1) 0 1 = bisect errDip 99 (1/2) 1
      have e0 : errDip 0 = some 1 := if_neg (by norm_num)
      have e1' : errDip 1 = some 1 := if_neg (by norm_num)
      rw [bisect]
      rw [show ((0:ℚ) + 1) / 2 = 1/2 from by norm_num, hD, e0, e1']
      rw [show ltInf (some (1/1000)) (some (1/10000)) = false from by norm_num [ltInf]]
      rw [show ltInf (some 1) (some 1) = false from by norm_num [ltInf]]
      simp only [Bool.false_eq_true, if_false]
    rw [hstep]
    exact if_neg (ne_of_gt (bisect_errDip 99 1 (by norm_num)).1)

/-- CLAIM C3 (amended): for every provider, pair, target, start and
non-negative horizon, the solver terminates within its fixed 100-iteration
budget at an instant inside `[t0, t0 + horizon]`; if the error at the
initial interval's midpoint is already below the 1e-4 tolerance it returns
that midpoint immediately; when the cap is reached it returns the FINAL
interval midpoint, which need not be the smallest-error midpoint
evaluated. -/
theorem c3_solver_amended (pos : ℕ → ℚ → Option ℚ) (planet1 planet2 : ℕ)
    (target_angle start_jd search_days : ℚ) (h : 0 ≤ search_days) :
    start_jd ≤ find_exact_aspect_time pos planet1 planet2 target_angle start_jd search_days ∧
    find_exact_aspect_time pos planet1 planet2 target_angle start_jd search_days ≤
      start_jd + search_days ∧
    (ltInf (angle_difference_from_target (pos planet1) (pos planet2) target_angle
        ((start_jd + (start_jd + search_days)) / 2)) (some (1/10000)) = true →
      find_exact_aspect_time pos planet1 planet2 target_angle start_jd search_days =
        (start_jd + (start_jd + search_days)) / 2) := by
  have hb := bisect_bounds
    (angle_difference_from_target (pos planet1) (pos planet2) target_angle)
    100 start_jd (start_jd + search_days) (by linarith)
  refine ⟨hb.1, hb.2, ?_⟩
  intro hearly
  show bisect (angle_difference_from_target (pos planet1) (pos planet2) target_angle)
      (99 + 1) start_jd (start_jd + search_days) = (start_jd + (start_jd + search_days)) / 2
  rw [bisect, if_pos hearly]

/-- Witness for C3 (amended) on the all-failing provider over `[0, 1]`. -/
theorem c3_solver_amended_witness :
    (0 : ℚ) ≤ 1 ∧
    0 ≤ find_exact_aspect_time posNone 0 1 0 0 1 ∧
    find_exact_aspect_time posNone 0 1 0 0 1 ≤ 0 + 1 := by
  have h := c3_solver_amended posNone 0 1 0 0 1 (by norm_num)
  exact ⟨by norm_num, h.1, h.2.1⟩

/-- CLAIM C4 (counterexample): with the provider failing at every instant,
the solver does NOT report the candidate as unresolved — it returns the
concrete instant `1 - 1/2^101` (the final interval midpoint of `[0, 1]`) —
and the Scanner does not discard the candidate: its truthiness guard passes
and the re-measurement raises a `TypeError` instead. -/
theorem c4_all_fail_counterexample :
    find_exact_aspect_time posNone 0 1 0 0 1 = 1 - 1 / 2 ^ 101 ∧
    processCandidate posNone 0 1 0 1 =
      Except.error "TypeError: unsupported operand for NoneType" := by
  constructor
  · rw [find_exact_aspect_time_posNone]; ring
  · simp only [processCandidate]
    rw [find_exact_aspect_time_posNone]
    rw [if_pos (show ((1:ℚ) - 1/2) + 1 - 1/2^101 ≠ 0 from by norm_num)]
    dsimp only [posNone]

/-- CLAIM C4 (amended): when the provider fails at every instant the solver
evaluates, it still returns an instant — the final interval midpoint
`t0 + horizon - horizon/2^101` — rather than any unresolved marker, and
whenever that instant is non-zero the Scanner's `if exact_jd:` guard does
not discard the candidate: the subsequent position re-measurement raises a
`TypeError` (no event is committed, but by error, not by discard). -/
theorem c4_all_fail_amended (planet1 planet2 : ℕ)
    (target_angle start_jd search_days current_jd : ℚ) :
    find_exact_aspect_time posNone planet1 planet2 target_angle start_jd search_days =
      start_jd + search_days - search_days / 2 ^ 101 ∧
    (find_exact_aspect_time posNone planet1 planet2 target_angle (current_jd - 1/2) 1 ≠ 0 →
      processCandidate posNone planet1 planet2 target_angle current_jd =
        Except.error "TypeError: unsupported operand for NoneType") := by
  refine ⟨find_exact_aspect_time_posNone _ _ _ _ _, ?_⟩
  intro h
  simp only [processCandidate]
  rw [if_pos h]
  dsimp only [posNone]

/-- Witness for C4 (amended) at `current_jd = 1`. -/
theorem c4_all_fail_amended_witness :
    find_exact_aspect_time posNone 0 1 0 0 1 = 0 + 1 - 1 / 2 ^ 101 ∧
    processCandidate posNone 0 1 0 1 =
      Except.error "TypeError: unsupported operand for NoneType" := by
  have h := c4_all_fail_amended 0 1 0 0 1 1
  refine ⟨h.1, h.2 ?_⟩
  rw [(c4_all_fail_amended 0 1 0 (1 - 1/2) 1 1).1]
  norm_num

/-- CLAIM C5: any event the refinement stage commits has its re-measured
angular error between 0 and the 0.01-degree acceptance tolerance, provided
the position provider honours the `[0, 360)` longitude contract; a
candidate whose re-measured error exceeds 0.01 yields no event. -/
theorem c5_committed_error_bounds (pos : ℕ → ℚ → Option ℚ)
    (hpos : ∀ p jd v, pos p jd = some v → 0 ≤ v ∧ v < 360)
    (planet1 planet2 : ℕ) (target_angle current_jd : ℚ) (ev : AspectEvent)
    (h : processCandidate pos planet1 planet2 target_angle current_jd =
      Except.ok (some ev)) :
    0 ≤ ev.angle_error ∧ ev.angle_error ≤ 1/100 := by
  simp only [processCandidate] at h
  set X := find_exact_aspect_time pos planet1 planet2 target_angle (current_jd - 1/2) 1 with hX
  by_cases hjd : X ≠ 0
  · rw [if_pos hjd] at h
    rcases hp1 : pos planet1 X with _ | e1
    · rw [hp1] at h
      rcases hp2 : pos planet2 X with _ | e2 <;> rw [hp2] at h <;> simp at h
    · rw [hp1] at h
      rcases hp2 : pos planet2 X with _ | e2
      · rw [hp2] at h
        simp at h
      · rw [hp2] at h
        dsimp only at h
        set aerr := (if target_angle = 180 then |angular_distance e1 e2 - 180|
          else if target_angle = 0 then
            min (angular_distance e1 e2) (360 - angular_distance e1 e2)
          else |angular_distance e1 e2 - target_angle|) with haerr
        by_cases htol : aerr ≤ 1/100
        · rw [if_pos htol] at h
          simp only [Except.ok.injEq, Option.some.injEq] at h
          have hev : ev.angle_error = pyRound6 aerr := by rw [← h]
          have h1 := hpos planet1 X e1 hp1
          have h2 := hpos planet2 X e2 hp2
          have hdist : |e1 - e2| ≤ 360 := by
            rw [abs_sub_le_iff]
            constructor <;> linarith [h1.1, h1.2, h2.1, h2.2]
          have hb := angular_distance_bounds e1 e2 hdist
          have h0a : 0 ≤ aerr := by
            rw [haerr]
            by_cases h180 : target_angle = 180
            · rw [if_pos h180]; exact abs_nonneg _
            · rw [if_neg h180]
              by_cases h0t : target_angle = 0
              · rw [if_pos h0t]
                exact le_min hb.1 (by linarith [hb.2])
              · rw [if_neg h0t]; exact abs_nonneg _
          rw [hev]
          exact pyRound6_bounds aerr h0a htol
        · rw [if_neg htol] at h
          simp at h
  · rw [if_neg hjd] at h
    simp at h

/-- Against `posZero` the solver's error function is constantly zero (a
permanent exact conjunction). -/
theorem errZero_eq :
    angle_difference_from_target (posZero 0) (posZero 1) 0 = fun _ => some 0 := by
  funext jd
  show angle_difference_from_target (posZero 0) (posZero 1) 0 jd = some 0
  simp only [angle_difference_from_target, posZero, angular_distance]
  norm_num [min_def]

/-- Against `posZero` the solver returns the first midpoint (early exit at
zero error). -/
theorem find_exact_aspect_time_posZero :
    find_exact_aspect_time posZero 0 1 0 (1 - 1/2) 1 = 1 := by
  unfold find_exact_aspect_time
  rw [errZero_eq]
  rw [show ((1:ℚ) - 1/2) = 1/2 from by norm_num, show ((1:ℚ)/2 + 1) = 3/2 from by norm_num]
  show bisect (fun _ => some 0) (99 + 1) (1/2) (3/2) = 1
  rw [bisect]
  rw [if_pos (show ltInf (some 0) (some (1/10000)) = true from by norm_num [ltInf])]
  norm_num

/-- A concrete committed event: `posZero`, conjunction target, step instant
1. -/
theorem processCandidate_posZero :
    processCandidate posZero 0 1 0 1 = Except.ok (some ⟨1, 0, 0, 0, 0⟩) := by
  simp only [processCandidate]
  rw [find_exact_aspect_time_posZero]
  rw [if_pos (show (1:ℚ) ≠ 0 by norm_num)]
  dsimp only [posZero]
  norm_num [angular_distance, min_def, pyRound6_zero]

/-- Witness for C5 on the committed event of `processCandidate_posZero`. -/
theorem c5_committed_error_bounds_witness :
    0 ≤ (⟨1, 0, 0, 0, 0⟩ : AspectEvent).angle_error ∧
    (⟨1, 0, 0, 0, 0⟩ : AspectEvent).angle_error ≤ 1/100 :=
  c5_committed_error_bounds posZero
    (by intro p jd v hv
        simp only [posZero, Option.some.injEq] at hv
        rw [← hv]
        norm_num)
    0 1 0 1 ⟨1, 0, 0, 0, 0⟩ processCandidate_posZero

/-- CLAIM C9 (code bug): on any non-empty scan range the very first loop
iteration of `scan_for_aspects` calls the `datetime` module object
(`dt = datetime(*current_date[:6])`, line 222, after `import datetime` at
line 9) and a `TypeError` propagates out of the scan's public entry point —
regardless of the position provider — contradicting the claim that missing
data is skipped and a (possibly empty) event list is always returned. -/
theorem c9_scan_raises :
    scan_for_aspects posZero 0 1 3 10 =
      Except.error "TypeError: 'module' object is not callable" := by
  show scanLoop posZero 1 (3 / 24) (9 + 1) 0 [] = _
  rw [scanLoop]
  rw [if_pos (show (0:ℚ) ≤ 1 by norm_num)]
  rfl

/-- `is_regular_45_multiple` explicitly excludes the other two pattern
classes. -/
theorem regular_excludes (price : ℕ) (h : is_regular_45_multiple price = true) :
    is_bold_pattern price = false ∧ is_short_term_pattern price = false := by
  unfold is_regular_45_multiple at h
  by_cases h1 : price % 45 ≠ 0 ∨ price = 0
  · rw [if_pos h1] at h; exact absurd h (by simp)
  · rw [if_neg h1] at h
    by_cases h2 : price ∈ priority_patterns
    · rw [if_pos h2] at h; exact absurd h (by simp)
    · rw [if_neg h2] at h
      cases hb : is_bold_pattern price
      · rw [hb] at h
        cases hs : is_short_term_pattern price
        · exact ⟨rfl, rfl⟩
        · rw [hs] at h; simp at h
      · rw [hb] at h; simp at h

/-- A price can never be bold (long-term) and short-term at once: the two
5-digit branches contradict each other on `price // 100 % 45`, the 4-digit
branches likewise, mixed lengths contradict on the digit count, and the
priority levels are at most 3 digits long. -/
theorem bold_short_exclusive (price : ℕ) (hb : is_bold_pattern price = true)
    (hs : is_short_term_pattern price = true) : False := by
  unfold is_bold_pattern at hb
  simp only [Bool.or_eq_true, Bool.and_eq_true, decide_eq_true_eq] at hb
  rcases hb with ((hb | hb) | hb) | hb
  · simp only [priority_patterns, List.mem_cons, List.not_mem_nil, or_false] at hb
    rcases hb with rfl | rfl | rfl | rfl | rfl | rfl | rfl | rfl <;> exact absurd hs (by decide)
  · unfold is_short_term_pattern at hs
    simp only [Bool.or_eq_true, Bool.and_eq_true, decide_eq_true_eq] at hs
    obtain ⟨⟨⟨h5, _⟩, h45⟩, hpos⟩ := hb
    rcases hs with ⟨⟨⟨_, _⟩, _⟩, hdisj⟩ | ⟨⟨⟨h4, _⟩, _⟩, _⟩
    · rcases hdisj with hne | h0
      · exact hne h45
      · omega
    · rw [h5] at h4; omega
  · unfold is_short_term_pattern at hs
    simp only [Bool.or_eq_true, Bool.and_eq_true, decide_eq_true_eq] at hs
    obtain ⟨⟨⟨h4b, _⟩, h45⟩, hpos⟩ := hb
    rcases hs with ⟨⟨⟨h5, _⟩, _⟩, _⟩ | ⟨⟨⟨_, _⟩, _⟩, hdisj⟩
    · rw [h4b] at h5; omega
    · rcases hdisj with hne | h0
      · exact hne h45
      · omega
  · unfold is_short_term_pattern at hs
    simp only [Bool.or_eq_true, Bool.and_eq_true, decide_eq_true_eq] at hs
    obtain ⟨⟨h3, _⟩, _⟩ := hb
    rcases hs with ⟨⟨⟨h5, _⟩, _⟩, _⟩ | ⟨⟨⟨h4, _⟩, _⟩, _⟩
    · rw [h3] at h5; omega
    · rw [h3] at h4; omega

/-- CLAIM C10: for every positive integer price, the three price-pattern
classifiers `is_bold_pattern`, `is_short_term_pattern` and
`is_regular_45_multiple` are pairwise mutually exclusive, so each price
falls in at most one of the long-term, short-term and regular 45-degree
categories. -/
theorem c10_patterns_mutually_exclusive (price : ℕ) (_hp : 0 < price) :
    ¬ (is_bold_pattern price = true ∧ is_short_term_pattern price = true) ∧
    ¬ (is_bold_pattern price = true ∧ is_regular_45_multiple price = true) ∧
    ¬ (is_short_term_pattern price = true ∧ is_regular_45_multiple price = true) := by
  refine ⟨fun ⟨hb, hs⟩ => bold_short_exclusive price hb hs,
    fun ⟨hb, hr⟩ => ?_, fun ⟨hs, hr⟩ => ?_⟩
  · rw [(regular_excludes price hr).1] at hb; exact absurd hb (by simp)
  · rw [(regular_excludes price hr).2] at hs; exact absurd hs (by simp)

/-- Witness for C10 at the priority level 45. -/
theorem c10_patterns_mutually_exclusive_witness :
    ¬ (is_bold_pattern 45 = true ∧ is_short_term_pattern 45 = true) ∧
    ¬ (is_bold_pattern 45 = true ∧ is_regular_45_multiple 45 = true) ∧
    ¬ (is_short_term_pattern 45 = true ∧ is_regular_45_multiple 45 = true) :=
  c10_patterns_mutually_exclusive 45 (by norm_num)
